import Mathlib

/-!
Shallow embedding of the authentication token lifecycle of the
MagicStreamMovies server (Go + Gin + MongoDB + jwt/v5 + bcrypt).

Modelling conventions:
* A signed JWT string is represented abstractly as its claims paired with
  the secret it was signed with (HS256 signing is deterministic, so the
  claims and the secret determine the token string; two tokens are the
  same string iff claims and secret coincide).
* bcrypt hashing is represented as the pair (input, salt); verification
  succeeds iff the candidate equals the hashed input.  The salt models the
  randomness of bcrypt.GenerateFromPassword.
* The users collection is a list of documents; mongo UpdateOne with a
  user_id filter updates the first matching document and reports success
  even when nothing matched (MatchedCount 0 is not an error).
* I/O faults (transport failures of FindOne/CountDocuments/InsertOne/
  UpdateOne, and jwt SignedString failure) are injected through a `Faults`
  record, making every fallible call of the Go code explicit.
* `time.Now()` is a `Nat` (unix seconds) threaded through each handler.
-/

set_option linter.unusedVariables false

namespace MagicStream

/-- Error kinds surfaced by JWT parsing/validation (jwt/v5 distinguishes a
signature mismatch from an expired token; the wrong-type rejection is done
by the application code after parsing). -/
inductive TokenError
  | invalidSignature
  | expired
  | wrongTokenType
deriving DecidableEq, Repr

/-- The claims structure `SignedDetails` of utils: a type discriminator,
the user fields, and the registered claims (expiry, issued-at, subject). -/
structure SignedDetails where
  type : String
  userId : String
  firstName : String
  lastName : String
  email : String
  role : String
  expiresAt : Nat
  issuedAt : Nat
  subject : String
deriving DecidableEq, Repr

/-- A signed token: HS256 is deterministic, so a token string is faithfully
represented by its claims together with the signing secret. -/
structure Jwt where
  claims : SignedDetails
  secret : String
deriving DecidableEq, Repr

/-- The environment variables SECRET_KEY and SECRET_REFRESH_KEY. -/
structure Env where
  secretKey : String
  secretRefreshKey : String
deriving DecidableEq, Repr

/-- Injected failures of the fallible external calls made by the code. -/
structure Faults where
  signFails : Bool
  queryFails : Bool
  insertFails : Bool
  updateFails : Bool
deriving DecidableEq, Repr

/-- A run in which no external call fails. -/
def noFaults : Faults := ⟨false, false, false, false⟩

/-- A bcrypt hash of a value of type α: the pair of the hashed input and
the salt drawn when hashing. -/
structure BcryptHash (α : Type) where
  plain : α
  salt : Nat
deriving DecidableEq, Repr

/-- bcrypt.GenerateFromPassword: one-way, salted. -/
def bcryptGenerate {α : Type} (input : α) (salt : Nat) : BcryptHash α :=
  ⟨input, salt⟩

/-- bcrypt.CompareHashAndPassword: succeeds iff the candidate equals the
value originally hashed (salt is recovered from the stored hash). -/
def bcryptCompare {α : Type} [DecidableEq α] (h : BcryptHash α) (candidate : α) : Bool :=
  decide (h.plain = candidate)

/-- A document of the mongo `users` collection (models.User).  The field
`refreshTokenHash` is `refresh_token_hash`; `token` and `refreshToken` are
the legacy plain-text fields that `UpdateAllTokens` now `$unset`s. -/
structure UserDoc where
  userID : String
  firstName : String
  lastName : String
  email : String
  password : BcryptHash String
  role : String
  favouriteGenres : List String
  refreshTokenHash : Option (BcryptHash Jwt)
  token : Option Jwt
  refreshToken : Option Jwt
  createdAt : Nat
  updatedAt : Nat
deriving DecidableEq, Repr

/-- The users collection. -/
abbrev Db := List UserDoc

/-- FindOne with filter user_id: the first document whose user_id matches. -/
def findOneByUserId (db : Db) (uid : String) : Option UserDoc :=
  db.find? (fun d => d.userID == uid)

/-- FindOne with filter email: the first document whose email matches. -/
def findOneByEmail (db : Db) (email : String) : Option UserDoc :=
  db.find? (fun d => d.email == email)

/-- UpdateOne with filter user_id: rewrites the first matching document;
when no document matches this is a no-op and still reports success. -/
def updateOneByUserId (db : Db) (uid : String) (f : UserDoc → UserDoc) : Db :=
  match db with
  | [] => []
  | d :: rest =>
    if d.userID == uid then f d :: rest
    else d :: updateOneByUserId rest uid f

/-- GenerateAllTokens of utils: builds the access claims (24h expiry, all
name fields) and the refresh claims (7-day expiry, no name fields), signs
the access token with SECRET_KEY and the refresh token with
SECRET_REFRESH_KEY.  A SignedString failure is the injected `signFails`. -/
def GenerateAllTokens (env : Env) (fl : Faults) (user : UserDoc) (now : Nat) :
    Except String (Jwt × Jwt) :=
  if fl.signFails then .error "signing failed"
  else
    .ok (⟨{ type := "access"
            userId := user.userID
            firstName := user.firstName
            lastName := user.lastName
            email := user.email
            role := user.role
            expiresAt := now + 24 * 3600
            issuedAt := now
            subject := user.userID }, env.secretKey⟩,
         ⟨{ type := "refresh"
            userId := user.userID
            firstName := ""
            lastName := ""
            email := user.email
            role := user.role
            expiresAt := now + 7 * 24 * 3600
            issuedAt := now
            subject := user.userID }, env.secretRefreshKey⟩)

/-- validateToken of utils: jwt.ParseWithClaims verifies the signature
against the given secret and (jwt/v5 default validation) rejects a token
whose expiry is not strictly in the future. -/
def validateToken (tok : Jwt) (secret : String) (now : Nat) :
    Except TokenError SignedDetails :=
  if tok.secret = secret then
    if tok.claims.expiresAt ≤ now then .error .expired
    else .ok tok.claims
  else .error .invalidSignature

/-- ValidateAccessToken of utils: parse with SECRET_KEY, reject a claims
type other than "access", then the explicit expiry check of the code. -/
def ValidateAccessToken (env : Env) (tok : Jwt) (now : Nat) :
    Except TokenError SignedDetails :=
  match validateToken tok env.secretKey now with
  | .error e => .error e
  | .ok claims =>
    if claims.type ≠ "access" then .error .wrongTokenType
    else if claims.expiresAt < now then .error .expired
    else .ok claims

/-- ValidateRefreshToken of utils: parse with SECRET_REFRESH_KEY, reject a
claims type other than "refresh", then the explicit expiry check. -/
def ValidateRefreshToken (env : Env) (tok : Jwt) (now : Nat) :
    Except TokenError SignedDetails :=
  match validateToken tok env.secretRefreshKey now with
  | .error e => .error e
  | .ok claims =>
    if claims.type ≠ "refresh" then .error .wrongTokenType
    else if claims.expiresAt < now then .error .expired
    else .ok claims

/-- UpdateAllTokens of utils: bcrypt-hashes the refresh token, then one
UpdateOne that sets refresh_token_hash and updated_at and unsets the
legacy plain-text token fields.  The access token is not stored.  Mongo
UpdateOne does not error when no document matches the user_id filter. -/
def UpdateAllTokens (fl : Faults) (db : Db) (userId : String)
    (accessToken refreshToken : Jwt) (salt now : Nat) : Except String Db :=
  let hashedRefreshToken := bcryptGenerate refreshToken salt
  if fl.updateFails then .error "failed to update tokens in database"
  else
    .ok (updateOneByUserId db userId fun d =>
      { d with refreshTokenHash := some hashedRefreshToken
               updatedAt := now
               token := none
               refreshToken := none })

/-- ValidateRefreshTokenFromDB of utils: FindOne the user, read
refresh_token_hash (absent or empty fails as not-found-for-user), and
bcrypt-compare the presented token with the stored hash. -/
def ValidateRefreshTokenFromDB (fl : Faults) (db : Db) (userId : String)
    (refreshToken : Jwt) : Except String Unit :=
  if fl.queryFails then .error "user not found"
  else
    match findOneByUserId db userId with
    | none => .error "user not found"
    | some user =>
      match user.refreshTokenHash with
      | none => .error "refresh token not found for user"
      | some hashedToken =>
        if bcryptCompare hashedToken refreshToken then .ok ()
        else .error "invalid refresh token"

/-- RevokeRefreshToken of utils: one UpdateOne that unsets
refresh_token_hash and stamps updated_at. -/
def RevokeRefreshToken (fl : Faults) (db : Db) (userId : String) (now : Nat) :
    Except String Db :=
  if fl.updateFails then .error "update failed"
  else
    .ok (updateOneByUserId db userId fun d =>
      { d with refreshTokenHash := none, updatedAt := now })

/-- The sanitized user payload (models.UserResponse). -/
structure UserResponse where
  userID : String
  firstName : String
  lastName : String
  email : String
  role : String
  favouriteGenres : List String
deriving DecidableEq, Repr

/-- Builds the models.UserResponse returned by the handlers. -/
def toUserResponse (d : UserDoc) : UserResponse :=
  ⟨d.userID, d.firstName, d.lastName, d.email, d.role, d.favouriteGenres⟩

/-- A JSON response body: an object with key "error", key "message", or
keys "message" and "user". -/
inductive RespBody
  | err (text : String)
  | msg (text : String)
  | msgUser (text : String) (user : UserResponse)
deriving DecidableEq, Repr

/-- One c.SetCookie call: `value = none` models the empty string written
when a cookie is cleared (together with maxAge -1). -/
structure SetCookieOp where
  name : String
  value : Option Jwt
  maxAge : Int
deriving DecidableEq, Repr

/-- The SetCookie call installing the access token (24h max-age). -/
def setAccessCookie (tok : Jwt) : SetCookieOp :=
  ⟨"access_token", some tok, 3600 * 24⟩

/-- The SetCookie call installing the refresh token (7-day max-age). -/
def setRefreshCookie (tok : Jwt) : SetCookieOp :=
  ⟨"refresh_token", some tok, 3600 * 24 * 7⟩

/-- clearAuthCookies of the user controller: overwrite both auth cookies
with an empty value and maxAge -1. -/
def clearAuthCookies : List SetCookieOp :=
  [⟨"access_token", none, -1⟩, ⟨"refresh_token", none, -1⟩]

/-- The observable outcome of one handler invocation: HTTP status, JSON
body, and the SetCookie calls that were issued. -/
structure HttpResponse where
  status : Nat
  body : RespBody
  cookies : List SetCookieOp
deriving DecidableEq, Repr

/-- The models.UserLogin request body (assumed to have passed binding and
validation, which only reject malformed JSON). -/
structure UserLogin where
  email : String
  password : String
deriving DecidableEq, Repr

/-- The registration request body (the user-supplied fields of
models.User, assumed to have passed binding and validation). -/
structure RegisterRequest where
  firstName : String
  lastName : String
  email : String
  password : String
  favouriteGenres : List String
deriving DecidableEq, Repr

/-- LoginUser of the user controller: FindOne by email (no user or a query
fault), bcrypt password check, GenerateAllTokens, UpdateAllTokens, then
both auth cookies and a 200 with the sanitized user. -/
def LoginUser (env : Env) (fl : Faults) (db : Db) (userLogin : UserLogin)
    (now salt : Nat) : HttpResponse × Db :=
  if fl.queryFails then (⟨500, .err "Failed to query user", []⟩, db)
  else
    match findOneByEmail db userLogin.email with
    | none => (⟨401, .err "Invalid email or password", []⟩, db)
    | some foundUser =>
      if bcryptCompare foundUser.password userLogin.password then
        match GenerateAllTokens env fl foundUser now with
        | .error _ => (⟨500, .err "Unable to generate tokens", []⟩, db)
        | .ok (accessToken, refreshToken) =>
          match UpdateAllTokens fl db foundUser.userID accessToken refreshToken salt now with
          | .error _ => (⟨500, .err "Failed to update tokens", []⟩, db)
          | .ok db2 =>
            (⟨200, .msgUser "User logged in successfully" (toUserResponse foundUser),
              [setAccessCookie accessToken, setRefreshCookie refreshToken]⟩, db2)
      else (⟨401, .err "Invalid email or password", []⟩, db)

/-- RegisterUser of the user controller: CountDocuments by email (conflict
when positive), hash the password, InsertOne the new document with role
USER and no token fields, then GenerateAllTokens, UpdateAllTokens, both
auth cookies and a 201 with the sanitized user.  `newId` is the generated
ObjectID hex. -/
def RegisterUser (env : Env) (fl : Faults) (db : Db) (req : RegisterRequest)
    (newId : String) (now pwdSalt salt : Nat) : HttpResponse × Db :=
  if fl.queryFails then (⟨500, .err "Failed to check existing user", []⟩, db)
  else if db.any (fun d => d.email == req.email) then
    (⟨409, .err "User with this email already exists", []⟩, db)
  else
    let doc : UserDoc :=
      { userID := newId
        firstName := req.firstName
        lastName := req.lastName
        email := req.email
        password := bcryptGenerate req.password pwdSalt
        role := "USER"
        favouriteGenres := req.favouriteGenres
        refreshTokenHash := none
        token := none
        refreshToken := none
        createdAt := now
        updatedAt := now }
    if fl.insertFails then (⟨500, .err "Failed to create user", []⟩, db)
    else
      match GenerateAllTokens env fl doc now with
      | .error _ => (⟨500, .err "Unable to generate tokens", []⟩, db ++ [doc])
      | .ok (accessToken, refreshToken) =>
        match UpdateAllTokens fl (db ++ [doc]) newId accessToken refreshToken salt now with
        | .error _ => (⟨500, .err "Failed to update tokens", []⟩, db ++ [doc])
        | .ok db2 =>
          (⟨201, .msgUser "User registered successfully" (toUserResponse doc),
            [setAccessCookie accessToken, setRefreshCookie refreshToken]⟩, db2)

/-- The revoke step of Logout: on a RevokeRefreshToken error the handler
answers 500 "Failed to logout" and returns before clearing any cookie;
otherwise it clears both cookies and reports success. -/
def logoutRevoke (fl : Faults) (db : Db) (userId : String) (now : Nat) :
    HttpResponse × Db :=
  match RevokeRefreshToken fl db userId now with
  | .error _ => (⟨500, .err "Failed to logout", []⟩, db)
  | .ok db2 => (⟨200, .msg "Logged out successfully", clearAuthCookies⟩, db2)

/-- Logout of the user controller: resolve the identity from the request
context (set by AuthMiddleware) or, failing that, from the refresh-token
cookie; an invalid refresh token still clears cookies and reports success;
an unresolved identity skips the revoke.  `refreshCookie = none` models an
absent or empty refresh_token cookie. -/
def Logout (env : Env) (fl : Faults) (db : Db) (ctxUserId : Option String)
    (refreshCookie : Option Jwt) (now : Nat) : HttpResponse × Db :=
  match ctxUserId with
  | some userId => logoutRevoke fl db userId now
  | none =>
    match refreshCookie with
    | some tok =>
      match ValidateRefreshToken env tok now with
      | .error _ => (⟨200, .msg "Logged out successfully", clearAuthCookies⟩, db)
      | .ok claims => logoutRevoke fl db claims.userId now
    | none => (⟨200, .msg "Logged out successfully", clearAuthCookies⟩, db)

/-- RefreshToken of the user controller (the ValidateAndRefresh operation
of the spec): read the refresh_token cookie, validate the signature, check
the stored hash via ValidateRefreshTokenFromDB (any failure is surfaced as
401 "Refresh token has been revoked"), FindOne the user, generate a new
pair, overwrite the stored hash, and set both cookies anew. -/
def RefreshToken (env : Env) (fl : Faults) (db : Db) (refreshCookie : Option Jwt)
    (now salt : Nat) : HttpResponse × Db :=
  match refreshCookie with
  | none => (⟨401, .err "No refresh token provided", []⟩, db)
  | some tok =>
    match ValidateRefreshToken env tok now with
    | .error _ => (⟨401, .err "Invalid or expired refresh token", []⟩, db)
    | .ok claims =>
      match ValidateRefreshTokenFromDB fl db claims.userId tok with
      | .error _ => (⟨401, .err "Refresh token has been revoked", []⟩, db)
      | .ok _ =>
        match findOneByUserId db claims.userId with
        | none => (⟨404, .err "User not found", []⟩, db)
        | some user =>
          match GenerateAllTokens env fl user now with
          | .error _ => (⟨500, .err "Failed to generate tokens", []⟩, db)
          | .ok (newAccessToken, newRefreshToken) =>
            match UpdateAllTokens fl db user.userID newAccessToken newRefreshToken salt now with
            | .error _ => (⟨500, .err "Failed to update tokens", []⟩, db)
            | .ok db2 =>
              (⟨200, .msg "Token refreshed successfully",
                [setAccessCookie newAccessToken, setRefreshCookie newRefreshToken]⟩, db2)

/-- The raw value of the access_token cookie: present but empty, or a
token. -/
inductive CookieVal
  | empty
  | tok (t : Jwt)
deriving DecidableEq, Repr

/-- GetAccessToken of utils: c.Cookie("access_token") errors only when the
cookie is absent; a present-but-empty cookie is returned as is. -/
def GetAccessToken (cookie : Option CookieVal) : Except String CookieVal :=
  match cookie with
  | none => .error "unable to retrieve access token from cookie"
  | some v => .ok v

/-- The outcome of AuthMiddleware: abort with a response, or call the
downstream handler with userId and role stored in the request context. -/
inductive MwResult
  | abort (resp : HttpResponse)
  | next (userId : String) (role : String)
deriving DecidableEq, Repr

/-- AuthMiddleware of the middleware package: absent cookie → 401 "No
token provided"; empty cookie → 401 "Token is empty"; invalid or expired
token → 401; otherwise set userId and role in context and continue. -/
def AuthMiddleware (env : Env) (cookie : Option CookieVal) (now : Nat) : MwResult :=
  match GetAccessToken cookie with
  | .error _ => .abort ⟨401, .err "No token provided", []⟩
  | .ok .empty => .abort ⟨401, .err "Token is empty", []⟩
  | .ok (.tok t) =>
    match ValidateAccessToken env t now with
    | .error _ => .abort ⟨401, .err "Invalid or expired token", []⟩
    | .ok claims => .next claims.userId claims.role

/-- A concrete environment with distinct access and refresh secrets. -/
def envX : Env := ⟨"ak", "rk"⟩

/-- A concrete registered user with no active refresh token. -/
def uX : UserDoc :=
  ⟨"u1", "Ada", "L", "ada@x.io", bcryptGenerate "pw" 3, "USER", [],
   none, none, none, 0, 0⟩

/-- The access token GenerateAllTokens signs for `uX` at time 0 under
`envX`. -/
def aX : Jwt :=
  ⟨⟨"access", "u1", "Ada", "L", "ada@x.io", "USER", 86400, 0, "u1"⟩, "ak"⟩

/-- The refresh token GenerateAllTokens signs for `uX` at time 0 under
`envX`. -/
def rX : Jwt :=
  ⟨⟨"refresh", "u1", "", "", "ada@x.io", "USER", 604800, 0, "u1"⟩, "rk"⟩

/-- UpdateOne with a user_id filter that matches nothing leaves the
collection unchanged. -/
theorem updateOneByUserId_not_found (db : Db) (uid : String) (f : UserDoc → UserDoc)
    (h : findOneByUserId db uid = none) : updateOneByUserId db uid f = db := by
  induction db with
  | nil => rfl
  | cons d rest ih =>
    rw [findOneByUserId, List.find?_eq_none] at h
    have hd : ¬(d.userID == uid) = true := h d (List.mem_cons_self d rest)
    rw [updateOneByUserId, if_neg hd]
    rw [ih]
    rw [findOneByUserId, List.find?_eq_none]
    exact fun x hx => h x (List.mem_cons_of_mem d hx)

/-- C3: for every user and environment, the access token produced by
GenerateAllTokens is accepted by ValidateAccessToken at any time before
its 24-hour expiry (in particular immediately), and the returned claims
carry the user's identity and role. -/
theorem issue_validateAccess_roundtrip (env : Env) (u : UserDoc) (t0 t1 : Nat)
    (hexp : t1 < t0 + 24 * 3600) (a0 r0 : Jwt)
    (hgen : GenerateAllTokens env noFaults u t0 = .ok (a0, r0)) :
    ∃ claims, ValidateAccessToken env a0 t1 = .ok claims ∧
      claims.userId = u.userID ∧ claims.role = u.role := by
  simp only [GenerateAllTokens, noFaults, Bool.false_eq_true, if_false,
    Except.ok.injEq, Prod.mk.injEq] at hgen
  obtain ⟨ha, hr⟩ := hgen
  have h1 : ¬(t0 + 24 * 3600 ≤ t1) := by omega
  have h2 : ¬(t0 + 24 * 3600 < t1) := by omega
  have hva : ValidateAccessToken env a0 t1 = .ok
      { type := "access", userId := u.userID, firstName := u.firstName,
        lastName := u.lastName, email := u.email, role := u.role,
        expiresAt := t0 + 24 * 3600, issuedAt := t0, subject := u.userID } := by
    subst ha
    simp [ValidateAccessToken, validateToken, h1, h2]
  exact ⟨_, hva, rfl, rfl⟩

/-- Witness for C3 at a concrete user, environment and time. -/
theorem issue_validateAccess_roundtrip_witness :
    ∃ claims, ValidateAccessToken envX aX 5 = .ok claims ∧
      claims.userId = uX.userID ∧ claims.role = uX.role :=
  issue_validateAccess_roundtrip envX uX 0 5 (by omega) aX rX rfl

/-- C4 counterexample: persisting a refresh-token hash for an identity
that matches no stored user reports success, not an error — mongo
UpdateOne with MatchedCount 0 returns no error and the code never checks
the count. -/
theorem updateAllTokens_missing_user_succeeds :
    findOneByUserId [] "u1" = none ∧
    UpdateAllTokens noFaults [] "u1" aX rX 0 0 = .ok [] :=
  ⟨rfl, rfl⟩

/-- C4 amended: for every identity not present among the stored users,
UpdateAllTokens succeeds as a no-op (it reports an error only on hashing
or transport failure, never NotFound). -/
theorem updateAllTokens_missing_user_noop (fl : Faults) (db : Db) (uid : String)
    (a r : Jwt) (salt now : Nat) (hupd : fl.updateFails = false)
    (h : findOneByUserId db uid = none) :
    UpdateAllTokens fl db uid a r salt now = .ok db := by
  simp [UpdateAllTokens, hupd, updateOneByUserId_not_found db uid _ h]

/-- Witness for the amended C4 at a concrete store and identity. -/
theorem updateAllTokens_missing_user_noop_witness :
    UpdateAllTokens noFaults [uX] "u7" aX rX 1 2 = .ok [uX] :=
  updateAllTokens_missing_user_noop noFaults [uX] "u7" aX rX 1 2 rfl (by decide)

/-- C6 counterexample: the system's own well-signed access token,
presented to the refresh validator under distinct secrets, is rejected
with an invalid-signature error, not with a wrong-token-type error (and
symmetrically for the refresh token at the access validator). -/
theorem cross_type_invalidSignature_counterexample :
    ValidateRefreshToken envX aX 0 = .error .invalidSignature ∧
    ValidateAccessToken envX rX 0 = .error .invalidSignature ∧
    TokenError.invalidSignature ≠ TokenError.wrongTokenType :=
  ⟨rfl, rfl, by decide⟩

/-- C6 amended: a well-signed, unexpired token of the wrong type is
rejected — with WrongTokenType when it is signed with the validator's own
secret, and with InvalidSignature when the two secrets are distinct and it
is signed with the other secret (the signature check fires before the
type check is reached). -/
theorem cross_type_rejection (env : Env) (claims : SignedDetails) (now : Nat)
    (hexp : now < claims.expiresAt) :
    (claims.type ≠ "refresh" →
      ValidateRefreshToken env ⟨claims, env.secretRefreshKey⟩ now = .error .wrongTokenType) ∧
    (claims.type ≠ "access" →
      ValidateAccessToken env ⟨claims, env.secretKey⟩ now = .error .wrongTokenType) ∧
    (env.secretKey ≠ env.secretRefreshKey →
      ValidateRefreshToken env ⟨claims, env.secretKey⟩ now = .error .invalidSignature ∧
      ValidateAccessToken env ⟨claims, env.secretRefreshKey⟩ now = .error .invalidSignature) := by
  have h1 : ¬(claims.expiresAt ≤ now) := by omega
  refine ⟨fun ht => ?_, fun ht => ?_, fun hs => ?_⟩
  · simp [ValidateRefreshToken, validateToken, h1, ht]
  · simp [ValidateAccessToken, validateToken, h1, ht]
  · have hs2 : env.secretRefreshKey ≠ env.secretKey := Ne.symm hs
    constructor
    · simp [ValidateRefreshToken, validateToken, hs]
    · simp [ValidateAccessToken, validateToken, hs2]

/-- Witness for the amended C6: an access-typed token signed with the
refresh secret is rejected with WrongTokenType. -/
theorem cross_type_rejection_witness :
    ValidateRefreshToken envX ⟨aX.claims, envX.secretRefreshKey⟩ 0 = .error .wrongTokenType :=
  (cross_type_rejection envX aX.claims 0 (by decide)).1 (by decide)

/-- C8 counterexample: a request whose access_token cookie is present but
empty is rejected with body error "Token is empty", not the claimed "No
token provided". -/
theorem authMiddleware_empty_cookie_counterexample :
    AuthMiddleware envX (some .empty) 0 = .abort ⟨401, .err "Token is empty", []⟩ ∧
    RespBody.err "Token is empty" ≠ RespBody.err "No token provided" :=
  ⟨rfl, by decide⟩

/-- C8 amended: an absent access_token cookie yields an aborted chain with
401 and body error "No token provided"; a present-but-empty cookie yields
an aborted chain with 401 and body error "Token is empty".  In both cases
the downstream handler is never invoked. -/
theorem authMiddleware_no_token_responses (env : Env) (now : Nat) :
    AuthMiddleware env none now = .abort ⟨401, .err "No token provided", []⟩ ∧
    AuthMiddleware env (some .empty) now = .abort ⟨401, .err "Token is empty", []⟩ :=
  ⟨rfl, rfl⟩

/-- C9: a failed login attempt, whether the email matches no stored user
or the password does not verify against the stored bcrypt hash, answers
401, issues no SetCookie call, and leaves the users collection (in
particular every refresh_token_hash field) unchanged. -/
theorem login_failure_frame (env : Env) (fl : Faults) (db : Db) (userLogin : UserLogin)
    (now salt : Nat) (hq : fl.queryFails = false)
    (hfail : findOneByEmail db userLogin.email = none ∨
      ∃ fu, findOneByEmail db userLogin.email = some fu ∧
        bcryptCompare fu.password userLogin.password = false) :
    (LoginUser env fl db userLogin now salt).1.status = 401 ∧
    (LoginUser env fl db userLogin now salt).1.cookies = [] ∧
    (LoginUser env fl db userLogin now salt).2 = db := by
  rcases hfail with h | ⟨fu, hfu, hpw⟩
  · refine ⟨?_, ?_, ?_⟩ <;> simp [LoginUser, hq, h]
  · refine ⟨?_, ?_, ?_⟩ <;> simp [LoginUser, hq, hfu, hpw]

/-- Witness for C9: login with an unknown email against a one-user store. -/
theorem login_failure_frame_witness :
    (LoginUser envX noFaults [uX] ⟨"nobody@x.io", "pw"⟩ 0 0).1.status = 401 ∧
    (LoginUser envX noFaults [uX] ⟨"nobody@x.io", "pw"⟩ 0 0).1.cookies = [] ∧
    (LoginUser envX noFaults [uX] ⟨"nobody@x.io", "pw"⟩ 0 0).2 = [uX] :=
  login_failure_frame envX noFaults [uX] ⟨"nobody@x.io", "pw"⟩ 0 0 rfl (Or.inl (by decide))

/-- C5: when the user is found and the password verifies but persisting
the hashed refresh token fails, login answers 500 "Failed to update
tokens", issues no SetCookie call (no plaintext token reaches the
client), and leaves the store unchanged. -/
theorem login_persist_failure_aborts (env : Env) (fl : Faults) (db : Db)
    (userLogin : UserLogin) (now salt : Nat) (fu : UserDoc)
    (hq : fl.queryFails = false) (hs : fl.signFails = false) (hu : fl.updateFails = true)
    (hfu : findOneByEmail db userLogin.email = some fu)
    (hpw : bcryptCompare fu.password userLogin.password = true) :
    (LoginUser env fl db userLogin now salt).1 =
      ⟨500, .err "Failed to update tokens", []⟩ ∧
    (LoginUser env fl db userLogin now salt).2 = db := by
  constructor <;>
    simp [LoginUser, hq, hfu, hpw, GenerateAllTokens, hs, UpdateAllTokens, hu]

/-- Witness for C5: a correct login whose store write fails. -/
theorem login_persist_failure_aborts_witness :
    (LoginUser envX ⟨false, false, false, true⟩ [uX] ⟨"ada@x.io", "pw"⟩ 9 4).1 =
      ⟨500, .err "Failed to update tokens", []⟩ ∧
    (LoginUser envX ⟨false, false, false, true⟩ [uX] ⟨"ada@x.io", "pw"⟩ 9 4).2 = [uX] :=
  login_persist_failure_aborts envX ⟨false, false, false, true⟩ [uX]
    ⟨"ada@x.io", "pw"⟩ 9 4 uX rfl rfl rfl (by decide) (by decide)

/-- C2 counterexample: with a resolved identity and a failing store write,
Logout answers 500 "Failed to logout" and issues no SetCookie call — the
client-facing response reports failure and neither cookie is cleared. -/
theorem logout_visible_failure_counterexample :
    (Logout envX ⟨false, false, false, true⟩ [uX] (some "u1") none 5).1.status = 500 ∧
    (Logout envX ⟨false, false, false, true⟩ [uX] (some "u1") none 5).1.cookies = [] ∧
    (Logout envX ⟨false, false, false, true⟩ [uX] (some "u1") none 5).1.body =
      .err "Failed to logout" :=
  ⟨rfl, rfl, rfl⟩

/-- C2 amended: Logout reports success (200) and clears both cookies in
every case except one — when an identity was resolved and the Revoke
store write fails, it answers 500 "Failed to logout" and clears neither
cookie. -/
theorem logout_error_policy (env : Env) (fl : Faults) (db : Db)
    (ctxUserId : Option String) (refreshCookie : Option Jwt) (now : Nat) :
    ((ctxUserId.isSome = true ∨ ∃ tok claims, refreshCookie = some tok ∧
        ValidateRefreshToken env tok now = .ok claims) ∧ fl.updateFails = true →
      (Logout env fl db ctxUserId refreshCookie now).1 =
        ⟨500, .err "Failed to logout", []⟩) ∧
    (¬((ctxUserId.isSome = true ∨ ∃ tok claims, refreshCookie = some tok ∧
        ValidateRefreshToken env tok now = .ok claims) ∧ fl.updateFails = true) →
      (Logout env fl db ctxUserId refreshCookie now).1 =
        ⟨200, .msg "Logged out successfully", clearAuthCookies⟩) := by
  constructor
  · rintro ⟨hres, hu⟩
    cases ctxUserId with
    | some uid => simp [Logout, logoutRevoke, RevokeRefreshToken, hu]
    | none =>
      rcases hres with h | ⟨tok, claims, hcookie, hv⟩
      · simp at h
      · subst hcookie
        simp [Logout, hv, logoutRevoke, RevokeRefreshToken, hu]
  · intro hn
    cases ctxUserId with
    | some uid =>
      have hu : fl.updateFails = false := by
        cases h : fl.updateFails
        · rfl
        · exact absurd ⟨Or.inl rfl, h⟩ hn
      simp [Logout, logoutRevoke, RevokeRefreshToken, hu]
    | none =>
      cases refreshCookie with
      | none => rfl
      | some tok =>
        cases hv : ValidateRefreshToken env tok now with
        | error e => simp [Logout, hv]
        | ok claims =>
          have hu : fl.updateFails = false := by
            cases h : fl.updateFails
            · rfl
            · exact absurd ⟨Or.inr ⟨tok, claims, rfl, hv⟩, h⟩ hn
          simp [Logout, hv, logoutRevoke, RevokeRefreshToken, hu]

/-- Witness for the amended C2: an identity resolved from a valid
refresh-token cookie together with a failing store write yields the 500
response with no cookie cleared. -/
theorem logout_error_policy_witness :
    (Logout envX ⟨false, false, false, true⟩ [uX] none (some rX) 5).1 =
      ⟨500, .err "Failed to logout", []⟩ :=
  (logout_error_policy envX ⟨false, false, false, true⟩ [uX] none (some rX) 5).1
    ⟨Or.inr ⟨rX, rX.claims, rfl, rfl⟩, rfl⟩

/-- C10: when the duplicate-email check and the insert succeed but token
generation or the hash-persisting store write then fails, registration
answers 500 with no SetCookie call, while the newly inserted user document
stays in the store with no refresh_token_hash. -/
theorem register_not_atomic (env : Env) (fl : Faults) (db : Db) (req : RegisterRequest)
    (newId : String) (now pwdSalt salt : Nat)
    (hq : fl.queryFails = false) (hi : fl.insertFails = false)
    (hdup : db.any (fun d => d.email == req.email) = false)
    (hfail : fl.signFails = true ∨ fl.updateFails = true) :
    (RegisterUser env fl db req newId now pwdSalt salt).1.status = 500 ∧
    (RegisterUser env fl db req newId now pwdSalt salt).1.cookies = [] ∧
    ∃ doc, (RegisterUser env fl db req newId now pwdSalt salt).2 = db ++ [doc] ∧
      doc.userID = newId ∧ doc.refreshTokenHash = none := by
  cases hsf : fl.signFails with
  | true =>
    refine ⟨?_, ?_,
      ⟨⟨newId, req.firstName, req.lastName, req.email,
        bcryptGenerate req.password pwdSalt, "USER", req.favouriteGenres,
        none, none, none, now, now⟩, ?_, rfl, rfl⟩⟩ <;>
      simp [RegisterUser, hq, hi, hdup, GenerateAllTokens, hsf]
  | false =>
    have hu : fl.updateFails = true := by
      rcases hfail with h | h
      · rw [hsf] at h; exact absurd h (by decide)
      · exact h
    refine ⟨?_, ?_,
      ⟨⟨newId, req.firstName, req.lastName, req.email,
        bcryptGenerate req.password pwdSalt, "USER", req.favouriteGenres,
        none, none, none, now, now⟩, ?_, rfl, rfl⟩⟩ <;>
      simp [RegisterUser, hq, hi, hdup, GenerateAllTokens, hsf, UpdateAllTokens, hu]

/-- Witness for C10: a registration whose store write fails after the
insert. -/
theorem register_not_atomic_witness :
    (RegisterUser envX ⟨false, false, false, true⟩ [] ⟨"Bo", "K", "bo@x.io", "s3", []⟩
        "u9" 1 2 3).1.status = 500 ∧
    (RegisterUser envX ⟨false, false, false, true⟩ [] ⟨"Bo", "K", "bo@x.io", "s3", []⟩
        "u9" 1 2 3).1.cookies = [] ∧
    ∃ doc, (RegisterUser envX ⟨false, false, false, true⟩ [] ⟨"Bo", "K", "bo@x.io", "s3", []⟩
        "u9" 1 2 3).2 = [] ++ [doc] ∧
      doc.userID = "u9" ∧ doc.refreshTokenHash = none :=
  register_not_atomic envX ⟨false, false, false, true⟩ [] ⟨"Bo", "K", "bo@x.io", "s3", []⟩
    "u9" 1 2 3 rfl rfl (by decide) (Or.inr rfl)

/-- C7: after Issue stored the hash of a refresh token and Revoke then
cleared it, presenting the still-unexpired refresh token to the refresh
endpoint fails with 401 "Refresh token has been revoked" — the stored
hash is absent after revocation. -/
theorem revoke_then_refresh_fails (env : Env) (u : UserDoc) (t0 tr t2 salt0 saltX : Nat)
    (hexp : t2 < t0 + 7 * 24 * 3600) (a0 r0 : Jwt) (db0 db1 : Db)
    (hgen : GenerateAllTokens env noFaults u t0 = .ok (a0, r0))
    (hupd : UpdateAllTokens noFaults [u] u.userID a0 r0 salt0 t0 = .ok db0)
    (hrev : RevokeRefreshToken noFaults db0 u.userID tr = .ok db1) :
    (RefreshToken env noFaults db1 (some r0) t2 saltX).1 =
      ⟨401, .err "Refresh token has been revoked", []⟩ := by
  simp only [GenerateAllTokens, noFaults, Bool.false_eq_true, if_false,
    Except.ok.injEq, Prod.mk.injEq] at hgen
  obtain ⟨ha, hr⟩ := hgen
  simp only [UpdateAllTokens, noFaults, Bool.false_eq_true, if_false,
    updateOneByUserId, beq_self_eq_true, eq_self_iff_true, if_true,
    Except.ok.injEq] at hupd
  obtain rfl := hupd
  simp only [RevokeRefreshToken, noFaults, Bool.false_eq_true, if_false,
    updateOneByUserId, beq_self_eq_true, eq_self_iff_true, if_true,
    Except.ok.injEq] at hrev
  obtain rfl := hrev
  obtain rfl := hr
  have h2a : ¬(t0 + 604800 ≤ t2) := by omega
  have h2b : ¬(t0 + 604800 < t2) := by omega
  simp [RefreshToken, ValidateRefreshToken, validateToken, h2a, h2b,
    ValidateRefreshTokenFromDB, findOneByUserId, List.find?, noFaults]

/-- Witness for C7 at a concrete user, environment and times. -/
theorem revoke_then_refresh_fails_witness :
    (RefreshToken envX noFaults
        [⟨"u1", "Ada", "L", "ada@x.io", ⟨"pw", 3⟩, "USER", [], none, none, none, 0, 3⟩]
        (some rX) 9 11).1 =
      ⟨401, .err "Refresh token has been revoked", []⟩ :=
  revoke_then_refresh_fails envX uX 0 3 9 5 11 (by omega) aX rX
    [⟨"u1", "Ada", "L", "ada@x.io", ⟨"pw", 3⟩, "USER", [], some ⟨rX, 5⟩, none, none, 0, 0⟩]
    [⟨"u1", "Ada", "L", "ada@x.io", ⟨"pw", 3⟩, "USER", [], none, none, none, 0, 3⟩]
    rfl rfl rfl

/-- C1 counterexample: HS256 signing is deterministic and the claim
timestamps have second precision, so a refresh call made at the same
instant as issuance re-signs a refresh token byte-identical to r; the
overwritten hash then still matches r, and a second presentation of the
same string r succeeds (200) instead of failing with Revoked. -/
theorem refresh_rotation_same_second_counterexample :
    (RefreshToken envX noFaults
        [⟨"u1", "Ada", "L", "ada@x.io", ⟨"pw", 3⟩, "USER", [], some ⟨rX, 5⟩, none, none, 0, 0⟩]
        (some rX) 0 6).1.status = 200 ∧
    (RefreshToken envX noFaults
        (RefreshToken envX noFaults
          [⟨"u1", "Ada", "L", "ada@x.io", ⟨"pw", 3⟩, "USER", [], some ⟨rX, 5⟩, none, none, 0, 0⟩]
          (some rX) 0 6).2 (some rX) 0 7).1.status = 200 ∧
    (RefreshToken envX noFaults
        (RefreshToken envX noFaults
          [⟨"u1", "Ada", "L", "ada@x.io", ⟨"pw", 3⟩, "USER", [], some ⟨rX, 5⟩, none, none, 0, 0⟩]
          (some rX) 0 6).2 (some rX) 0 7).1.body = .msg "Token refreshed successfully" :=
  ⟨rfl, rfl, rfl⟩

/-- C1: after Issue stored the hash of refresh token r at time t0, a
refresh call presenting r at a later instant t1 succeeds (rotating the
stored hash to the hash of the newly signed refresh token, which differs
from r because its issued-at differs), and a second refresh call
presenting the same r then fails with 401 "Refresh token has been
revoked". -/
theorem refresh_rotation_revokes_old_token (env : Env) (u : UserDoc)
    (t0 t1 t2 salt0 salt1 salt2 : Nat) (hne : t1 ≠ t0)
    (he1 : t1 < t0 + 7 * 24 * 3600) (he2 : t2 < t0 + 7 * 24 * 3600)
    (a0 r0 : Jwt) (db0 : Db)
    (hgen : GenerateAllTokens env noFaults u t0 = .ok (a0, r0))
    (hupd : UpdateAllTokens noFaults [u] u.userID a0 r0 salt0 t0 = .ok db0) :
    (RefreshToken env noFaults db0 (some r0) t1 salt1).1.status = 200 ∧
    (RefreshToken env noFaults
        (RefreshToken env noFaults db0 (some r0) t1 salt1).2 (some r0) t2 salt2).1 =
      ⟨401, .err "Refresh token has been revoked", []⟩ := by
  simp only [GenerateAllTokens, noFaults, Bool.false_eq_true, if_false,
    Except.ok.injEq, Prod.mk.injEq] at hgen
  obtain ⟨ha, hr⟩ := hgen
  simp only [UpdateAllTokens, noFaults, Bool.false_eq_true, if_false,
    updateOneByUserId, beq_self_eq_true, eq_self_iff_true, if_true,
    Except.ok.injEq] at hupd
  obtain rfl := hupd
  obtain rfl := hr
  have h1a : ¬(t0 + 604800 ≤ t1) := by omega
  have h1b : ¬(t0 + 604800 < t1) := by omega
  have h2a : ¬(t0 + 604800 ≤ t2) := by omega
  have h2b : ¬(t0 + 604800 < t2) := by omega
  constructor <;>
    simp [RefreshToken, ValidateRefreshToken, validateToken, h1a, h1b, h2a, h2b,
      ValidateRefreshTokenFromDB, findOneByUserId, List.find?, GenerateAllTokens,
      UpdateAllTokens, updateOneByUserId, bcryptGenerate, bcryptCompare, hne, noFaults]

/-- Witness for C1 at a concrete user, environment and times. -/
theorem refresh_rotation_revokes_old_token_witness :
    (RefreshToken envX noFaults
        [⟨"u1", "Ada", "L", "ada@x.io", ⟨"pw", 3⟩, "USER", [], some ⟨rX, 5⟩, none, none, 0, 0⟩]
        (some rX) 1 6).1.status = 200 ∧
    (RefreshToken envX noFaults
        (RefreshToken envX noFaults
          [⟨"u1", "Ada", "L", "ada@x.io", ⟨"pw", 3⟩, "USER", [], some ⟨rX, 5⟩, none, none, 0, 0⟩]
          (some rX) 1 6).2 (some rX) 2 7).1 =
      ⟨401, .err "Refresh token has been revoked", []⟩ :=
  refresh_rotation_revokes_old_token envX uX 0 1 2 5 6 7 (by omega) (by omega) (by omega)
    aX rX
    [⟨"u1", "Ada", "L", "ada@x.io", ⟨"pw", 3⟩, "USER", [], some ⟨rX, 5⟩, none, none, 0, 0⟩]
    rfl rfl

end MagicStream
